import Mathlib

/-!
# Verification of the ajax cache interceptors

A shallow embedding of `src/packages/ajax/src/interceptors/cacheInterceptors.js`
together with a model of its collaborators from `cacheManager.js` (session gate,
pending-request registry, cache store), which are not part of the sources and are
therefore modelled from the specification.

The two interceptors are embedded as pure functions over an explicit
`CacheState`, additionally emitting a trace of `CacheEffect`s recording, in
execution order, every call made to the collaborators.  The single suspension
point of the request interceptor (`await pendingRequest`) is modelled by a
state transformer `duringAwait` describing what the rest of the system does
while the interceptor is suspended; when no pending request exists the
transformer is not applied, mirroring the cooperative scheduling model.
-/

/-- Resolved cache options, as produced by `extendCacheOptions`.
Sizes and durations use `0` for "not configured", matching the JS falsiness
checks (`!maxResponseSize`, `!maxAge`, `maxCacheSize || maxResponseSize`). -/
structure CacheOptions where
  useCache : Bool
  methods : List String
  contentTypes : Option (List String)
  maxAge : Nat
  maxResponseSize : Nat
  maxCacheSize : Nat
deriving DecidableEq

/-- Per-call cache options before resolution: a plain JS object in which any
field may be absent.  `{...global, ...perRequest}` merges two of these. -/
structure CacheOptionsPartial where
  useCache : Option Bool := none
  methods : Option (List String) := none
  contentTypes : Option (List String) := none
  maxAge : Option Nat := none
  maxResponseSize : Option Nat := none
  maxCacheSize : Option Nat := none
deriving DecidableEq

/-- The JS object spread `{...g, ...r}`: a field of `r` wins when present. -/
def mergeCacheOptions (g r : CacheOptionsPartial) : CacheOptionsPartial where
  useCache := r.useCache.orElse fun _ => g.useCache
  methods := r.methods.orElse fun _ => g.methods
  contentTypes := r.contentTypes.orElse fun _ => g.contentTypes
  maxAge := r.maxAge.orElse fun _ => g.maxAge
  maxResponseSize := r.maxResponseSize.orElse fun _ => g.maxResponseSize
  maxCacheSize := r.maxCacheSize.orElse fun _ => g.maxCacheSize

/-- Modelled from the spec: `extendCacheOptions` lives in `cacheManager.js`,
which is not among the sources.  Per the specification's configuration surface,
it fills defaults field-wise: `useCache` defaults to true, `methods` to a small
set of read verbs (here `get`), `contentTypes` to "allow all", and the size and
age limits to "not configured". -/
def extendCacheOptions (p : CacheOptionsPartial) : CacheOptions where
  useCache := p.useCache.getD true
  methods := p.methods.getD ["get"]
  contentTypes := p.contentTypes
  maxAge := p.maxAge.getD 0
  maxResponseSize := p.maxResponseSize.getD 0
  maxCacheSize := p.maxCacheSize.getD 0

/-- A request as seen by the cache layer: its method and url, plus the two
fields the admission phase attaches (`cacheOptions`, `cacheSessionId`). -/
structure Request where
  method : String
  url : String
  cacheOptions : Option CacheOptionsPartial := none
  cacheSessionId : Option String := none
deriving DecidableEq

/-- A response as seen by the cache layer: the back-reference to its request,
the `fromCache` flag, the two headers the interceptors read, and the size of
the materialized body (`(await response.clone().blob()).size`).
`contentLength` is `none` when the Content-Length header is absent. -/
structure Response where
  request : Option Request := none
  fromCache : Bool := false
  contentType : Option String := none
  contentLength : Option Nat := none
  bodySize : Nat := 0
deriving DecidableEq

/-- An entry of the cache store: the stored response snapshot, its measured
byte size and its insertion timestamp. -/
structure CacheEntry where
  response : Response
  size : Nat
  createdAt : Nat
deriving DecidableEq

/-- The process-wide shared state: session gate, cache store, pending-request
registry, and the current time used for insertion timestamps. -/
structure CacheState where
  sessionId : Option String := none
  entries : List (String × CacheEntry) := []
  pendingKeys : List String := []
  now : Nat := 0
deriving DecidableEq

/-- One observable call from an interceptor to a collaborator, in execution
order. -/
inductive CacheEffect where
  | resetSession (sessionId : String)
  | invalidate (requestId : String)
  | awaitPending (requestId : String)
  | cacheGet (requestId : String)
  | pendingSet (requestId : String)
  | cacheSet (requestId : String) (size : Nat)
  | truncate (budget : Nat)
  | resolve (requestId : String)
deriving DecidableEq

/- ### Collaborators from `cacheManager.js`, modelled from the spec -/

/-- Modelled from the spec: `resetCacheSession` of `cacheManager.js` (missing
from the sources) unconditionally overwrites the process-wide current session
identifier. -/
def resetCacheSession (id : String) (s : CacheState) : CacheState :=
  { s with sessionId := some id }

/-- Modelled from the spec: `isCurrentSessionId` of `cacheManager.js` (missing
from the sources) is structural equality against the process-wide identifier at
the instant of the call. -/
def isCurrentSessionId (id : Option String) (s : CacheState) : Bool :=
  s.sessionId == id

/-- Modelled from the spec: `ajaxCache.get(key, {maxAge, maxResponseSize})` of
`cacheManager.js` (missing from the sources) returns the stored response only
if `now - insertedAt <= maxAge` (when `maxAge` is set) and
`entry.size <= maxResponseSize` (when set); a failing entry is reported absent
but not deleted. -/
def ajaxCacheGet (key : String) (maxAge maxResponseSize : Nat) (s : CacheState) :
    Option Response :=
  match s.entries.lookup key with
  | none => none
  | some e =>
    if (maxAge == 0 || s.now - e.createdAt ≤ maxAge) &&
       (maxResponseSize == 0 || e.size ≤ maxResponseSize) then
      some e.response
    else
      none

/-- Modelled from the spec: `ajaxCache.set(key, response, size)` of
`cacheManager.js` (missing from the sources) inserts or overwrites, setting the
insertion timestamp to now. -/
def ajaxCacheSet (key : String) (response : Response) (size : Nat) (s : CacheState) :
    CacheState :=
  { s with entries :=
      (key, ⟨response, size, s.now⟩) :: s.entries.filter fun p => p.1 != key }

/-- Total stored bytes of the cache store. -/
def totalCacheSize (entries : List (String × CacheEntry)) : Nat :=
  (entries.map fun p => p.2.size).sum

/-- Removes one entry with the oldest insertion timestamp. -/
def evictOldest (entries : List (String × CacheEntry)) : List (String × CacheEntry) :=
  match entries.argmin fun p => p.2.createdAt with
  | none => entries
  | some oldest => entries.erase oldest

/-- Fueled eviction loop: evict oldest-inserted entries while the total exceeds
the budget. -/
def truncateLoop : Nat → Nat → List (String × CacheEntry) → List (String × CacheEntry)
  | 0, _, entries => entries
  | fuel + 1, budget, entries =>
    if totalCacheSize entries ≤ budget then entries
    else truncateLoop fuel budget (evictOldest entries)

/-- Modelled from the spec: `ajaxCache.truncateTo(budget)` of `cacheManager.js`
(missing from the sources) evicts the entry with the oldest insertion timestamp
while total bytes exceed the budget, until under budget or empty. -/
def ajaxCacheTruncateTo (budget : Nat) (s : CacheState) : CacheState :=
  { s with entries := truncateLoop s.entries.length budget s.entries }

/-- Modelled from the spec: `invalidateMatchingCache(requestId, cacheOptions)`
of `cacheManager.js` (missing from the sources) removes the entry for an exact
key match (the spec fixes exact-id matching). -/
def invalidateMatchingCache (requestId : String) (s : CacheState) : CacheState :=
  { s with entries := s.entries.filter fun p => p.1 != requestId }

/-- Modelled from the spec: `pendingRequestStore.get(key)` of `cacheManager.js`
(missing from the sources) returns the waitable for the key if one exists; here
only its existence matters. -/
def pendingRequestStoreGet (key : String) (s : CacheState) : Bool :=
  s.pendingKeys.contains key

/-- Modelled from the spec: `pendingRequestStore.set(key)` of `cacheManager.js`
(missing from the sources) creates a waitable entry for the key; at most one
pending entry exists per key. -/
def pendingRequestStoreSet (key : String) (s : CacheState) : CacheState :=
  if s.pendingKeys.contains key then s
  else { s with pendingKeys := key :: s.pendingKeys }

/-- Modelled from the spec: `pendingRequestStore.resolve(key)` of
`cacheManager.js` (missing from the sources) wakes every waiter and removes the
entry; resolving a key with no entry is a no-op. -/
def pendingRequestStoreResolve (key : String) (s : CacheState) : CacheState :=
  { s with pendingKeys := s.pendingKeys.filter fun k => k != key }

/- ### Helpers of `cacheInterceptors.js` (sources, lines 20-58) -/

/-- Whether `pat` occurs at the start of `s` (character-wise). -/
def listStartsWith : List Char → List Char → Bool
  | [], _ => true
  | _ :: _, [] => false
  | a :: pat, b :: s => a == b && listStartsWith pat s

/-- Whether `pat` occurs anywhere inside `s` (character-wise). -/
def listIncludes (pat : List Char) : List Char → Bool
  | [] => listStartsWith pat []
  | s@(_ :: rest) => listStartsWith pat s || listIncludes pat rest

/-- JavaScript `s.includes(pat)`: substring containment. -/
def strIncludes (s pat : String) : Bool :=
  listIncludes pat.data s.data

/-- JavaScript `method.toLowerCase()`, character-wise over the string's
contents. -/
def strToLower (s : String) : String :=
  ⟨s.data.map Char.toLower⟩

/-- Source `isMethodSupported(methods, method)`: the request method, lower-cased, is
in the cacheable `methods` list (line 26). -/
def isMethodSupported (methods : List String) (method : String) : Bool :=
  methods.contains (strToLower method)

/-- Source `isResponseContentTypeSupported(response, contentTypes)` (lines 34-38):
true if `contentTypes` is not an array, or if some whitelisted substring occurs
in `String(response.headers.get('Content-Type'))` (which is the string "null"
when the header is absent). -/
def isResponseContentTypeSupported (response : Response)
    (contentTypes : Option (List String)) : Bool :=
  match contentTypes with
  | none => true
  | some cts => cts.any fun ct => strIncludes (response.contentType.getD "null") ct

/-- Source `getResponseSize(response)` (lines 44-45):
`Number(response.headers.get('Content-Length')) || (await response.clone().blob()).size || 0`.
An absent header reads as `Number(null) = 0`, which is falsy, so the body is
materialized; a zero blob size yields the final `0`. -/
def getResponseSize (response : Response) : Nat :=
  let headerSize := response.contentLength.getD 0
  if headerSize != 0 then headerSize else response.bodySize

/-- Source `isResponseSizeSupported(responseSize, maxResponseSize)` (lines 53-58):
true when `maxResponseSize` is falsy, or the measured size is falsy, or the
measured size is within the limit. -/
def isResponseSizeSupported (responseSize maxResponseSize : Nat) : Bool :=
  if maxResponseSize == 0 then true
  else if responseSize == 0 then true
  else responseSize ≤ maxResponseSize

/- ### The interceptors (sources, lines 66-166) -/

/-- The options both interceptors resolve (lines 74-77 and 137-141):
`extendCacheOptions({...globalCacheOptions, ...request.cacheOptions})`, where
an absent `request.cacheOptions` spreads as the empty object.
`requestIdFunction` is part of the resolved options in JS; it is passed
separately here so that the option records stay first-order data. -/
def resolvedCacheOptions (globalCacheOptions : CacheOptionsPartial)
    (request : Request) : CacheOptions :=
  extendCacheOptions (mergeCacheOptions globalCacheOptions (request.cacheOptions.getD {}))

/-- All fields present, for writing resolved options back onto the request. -/
def CacheOptions.toPartial (o : CacheOptions) : CacheOptionsPartial where
  useCache := some o.useCache
  methods := some o.methods
  contentTypes := o.contentTypes
  maxAge := some o.maxAge
  maxResponseSize := some o.maxResponseSize
  maxCacheSize := some o.maxCacheSize

/-- Lines 82-84: the request interceptor stores the resolved `cacheOptions`
and the resolved `cacheSessionId` on the request, for the response
interceptor. -/
def admittedRequest (globalCacheOptions : CacheOptionsPartial)
    (cacheSessionId : String) (request : Request) : Request :=
  { request with
    cacheOptions := some (resolvedCacheOptions globalCacheOptions request).toPartial
    cacheSessionId := some cacheSessionId }

/-- The outcome of the request interceptor: either the (annotated) request
passes through to the network layer, or a response is served from cache. -/
inductive AdmissionResult where
  | passThrough (request : Request)
  | cacheHit (response : Response)
deriving DecidableEq

/-- One run of the request interceptor: final shared state, effect trace,
outcome. -/
structure AdmissionRun where
  state : CacheState
  trace : List CacheEffect
  result : AdmissionResult
deriving DecidableEq

/-- Source `createCacheRequestInterceptor(getCacheId, globalCacheOptions)` applied to
one request (lines 66-123).  `cacheSessionId` is the already-awaited result of
`getCacheId()`; `requestIdFunction` the resolved id function; `duringAwait`
describes the state change effected by other tasks while this one is suspended
on `await pendingRequest` (applied only when a pending request exists).
`validateCacheOptions` (line 68) cannot fail on well-typed options and has no
effect, so it does not appear. -/
def cacheRequestInterceptor (globalCacheOptions : CacheOptionsPartial)
    (requestIdFunction : Request → String) (cacheSessionId : String)
    (request : Request) (s0 : CacheState) (duringAwait : CacheState → CacheState) :
    AdmissionRun :=
  let s1 := resetCacheSession cacheSessionId s0
  let cacheOptions := resolvedCacheOptions globalCacheOptions request
  let request1 := admittedRequest globalCacheOptions cacheSessionId request
  if !cacheOptions.useCache then
    ⟨s1, [.resetSession cacheSessionId], .passThrough request1⟩
  else
    let requestId := requestIdFunction request1
    if !isMethodSupported cacheOptions.methods request1.method then
      ⟨invalidateMatchingCache requestId s1,
       [.resetSession cacheSessionId, .invalidate requestId], .passThrough request1⟩
    else
      let hasPending := pendingRequestStoreGet requestId s1
      let s2 := if hasPending then duringAwait s1 else s1
      let trace2 := .resetSession cacheSessionId ::
        (if hasPending then [.awaitPending requestId] else [])
      if hasPending && !isCurrentSessionId request1.cacheSessionId s2 then
        ⟨s2, trace2, .passThrough request1⟩
      else
        match ajaxCacheGet requestId cacheOptions.maxAge cacheOptions.maxResponseSize s2 with
        | some cachedResponse =>
          if isResponseContentTypeSupported cachedResponse cacheOptions.contentTypes then
            let request2 := { request1 with
              cacheOptions := some (request1.cacheOptions.getD { useCache := some false }) }
            ⟨s2, trace2 ++ [.cacheGet requestId],
             .cacheHit { cachedResponse with request := some request2, fromCache := true }⟩
          else
            ⟨pendingRequestStoreSet requestId s2,
             trace2 ++ [.cacheGet requestId, .pendingSet requestId], .passThrough request1⟩
        | none =>
          ⟨pendingRequestStoreSet requestId s2,
           trace2 ++ [.cacheGet requestId, .pendingSet requestId], .passThrough request1⟩

/-- Line 145: the response size is computed only when `maxCacheSize` or
`maxResponseSize` is configured, otherwise `0` is used. -/
def measuredResponseSize (cacheOptions : CacheOptions) (response : Response) : Nat :=
  if cacheOptions.maxCacheSize != 0 || cacheOptions.maxResponseSize != 0 then
    getResponseSize response
  else 0

/-- One run of the response interceptor: final shared state, effect trace, and
the returned response. -/
structure CaptureRun where
  state : CacheState
  trace : List CacheEffect
  response : Response
deriving DecidableEq

/-- Source `createCacheResponseInterceptor(globalCacheOptions)` applied to one
response (lines 130-166).  A missing `response.request` throws (lines
133-135), modelled by `Except.error`. -/
def cacheResponseInterceptor (globalCacheOptions : CacheOptionsPartial)
    (requestIdFunction : Request → String) (response : Response) (s0 : CacheState) :
    Except String CaptureRun :=
  match response.request with
  | none => .error "Missing request in response"
  | some request =>
    let cacheOptions := resolvedCacheOptions globalCacheOptions request
    if !response.fromCache && isMethodSupported cacheOptions.methods request.method then
      let requestId := requestIdFunction request
      let responseSize := measuredResponseSize cacheOptions response
      let afterStore : CacheState × List CacheEffect :=
        if isCurrentSessionId request.cacheSessionId s0 &&
           isResponseContentTypeSupported response cacheOptions.contentTypes &&
           isResponseSizeSupported responseSize cacheOptions.maxResponseSize then
          let s1 := ajaxCacheSet requestId response responseSize s0
          if cacheOptions.maxCacheSize != 0 then
            (ajaxCacheTruncateTo cacheOptions.maxCacheSize s1,
             [.cacheSet requestId responseSize, .truncate cacheOptions.maxCacheSize])
          else
            (s1, [.cacheSet requestId responseSize])
        else
          (s0, [])
      .ok ⟨pendingRequestStoreResolve requestId afterStore.1,
           afterStore.2 ++ [.resolve requestId], response⟩
    else
      .ok ⟨s0, [], response⟩

/- ### Run projections and basic lemmas -/

/-- Trace of a capture run; empty when the interceptor threw. -/
def captureTrace (x : Except String CaptureRun) : List CacheEffect :=
  match x with
  | .ok r => r.trace
  | .error _ => []

/-- Final state of a capture run, given the entry state; a capture that threw
touched no cache state. -/
def captureState (x : Except String CaptureRun) (s : CacheState) : CacheState :=
  match x with
  | .ok r => r.state
  | .error _ => s

/-- The response a capture run returned, if it did not throw. -/
def captureResponse (x : Except String CaptureRun) : Option Response :=
  match x with
  | .ok r => some r.response
  | .error _ => none

theorem admittedRequest_method (g : CacheOptionsPartial) (sid : String) (req : Request) :
    (admittedRequest g sid req).method = req.method := rfl

theorem admittedRequest_url (g : CacheOptionsPartial) (sid : String) (req : Request) :
    (admittedRequest g sid req).url = req.url := rfl

theorem admittedRequest_cacheSessionId (g : CacheOptionsPartial) (sid : String)
    (req : Request) : (admittedRequest g sid req).cacheSessionId = some sid := rfl

theorem admittedRequest_cacheOptions (g : CacheOptionsPartial) (sid : String)
    (req : Request) :
    (admittedRequest g sid req).cacheOptions = some (resolvedCacheOptions g req).toPartial :=
  rfl

/-- Lemma: `isResponseSizeSupported` in propositional form. -/
theorem isResponseSizeSupported_iff (n m : Nat) :
    isResponseSizeSupported n m = true ↔ (m = 0 ∨ n = 0 ∨ n ≤ m) := by
  unfold isResponseSizeSupported
  split_ifs with h1 h2 <;> simp_all

/- ### C10 -/

/-- C10: the size check passes whenever `maxResponseSize` is unset/zero or the
measured size is zero: `isResponseSizeSupported n m` is true exactly when
`m = 0`, `n = 0` or `n ≤ m`; consequently a response whose measured size is `0`
is cached by the capture interceptor regardless of the configured
`maxResponseSize`. -/
theorem C10_size_zero_bypasses_limit :
    (∀ n m : Nat, isResponseSizeSupported n m = true ↔ (m = 0 ∨ n = 0 ∨ n ≤ m)) ∧
    (∀ (g : CacheOptionsPartial) (f : Request → String) (s0 : CacheState)
       (req : Request) (resp : Response),
       resp.request = some req →
       resp.fromCache = false →
       isMethodSupported (resolvedCacheOptions g req).methods req.method = true →
       isCurrentSessionId req.cacheSessionId s0 = true →
       isResponseContentTypeSupported resp (resolvedCacheOptions g req).contentTypes = true →
       measuredResponseSize (resolvedCacheOptions g req) resp = 0 →
       CacheEffect.cacheSet (f req) 0 ∈
         captureTrace (cacheResponseInterceptor g f resp s0)) := by
  refine ⟨isResponseSizeSupported_iff, ?_⟩
  intro g f s0 req resp hreq hfc hm hsess hct hsz
  simp only [cacheResponseInterceptor, hreq, hfc, hm, hsz]
  simp only [hsess, hct, isResponseSizeSupported]
  simp [captureTrace]
  split <;> simp

/-- Witness for C10 at concrete inputs: measured size `0` with a configured
limit `maxResponseSize = 5` is still admitted and stored. -/
theorem C10_size_zero_bypasses_limit_witness :
    isResponseSizeSupported 0 7 = true ∧
    CacheEffect.cacheSet "/a" 0 ∈ captureTrace (cacheResponseInterceptor
      { maxResponseSize := some 5 } (fun r => r.url)
      { request := some { method := "get", url := "/a", cacheSessionId := some "s" } }
      { sessionId := some "s" }) := by
  refine ⟨(C10_size_zero_bypasses_limit.1 0 7).mpr (Or.inr (Or.inl rfl)), ?_⟩
  exact C10_size_zero_bypasses_limit.2 { maxResponseSize := some 5 } (fun r => r.url)
    { sessionId := some "s" }
    { method := "get", url := "/a", cacheSessionId := some "s" } _
    rfl rfl (by decide) (by decide) (by decide) (by decide)

/- ### C8 -/

/-- C8: a response reaching the capture interceptor without its originating
request throws (`Missing request in response`); with the request attached the
interceptor never throws and returns the response itself. -/
theorem C8_missing_request_throws (g : CacheOptionsPartial) (f : Request → String)
    (resp : Response) (s0 : CacheState) :
    (resp.request = none →
      cacheResponseInterceptor g f resp s0 = .error "Missing request in response") ∧
    (∀ req, resp.request = some req →
      captureResponse (cacheResponseInterceptor g f resp s0) = some resp) := by
  constructor
  · intro h
    simp [cacheResponseInterceptor, h]
  · intro req h
    simp only [cacheResponseInterceptor, h]
    split <;> rfl

/-- Witness for C8: a request-less response throws, a response carrying its
request is returned unchanged. -/
theorem C8_missing_request_throws_witness :
    cacheResponseInterceptor {} (fun r => r.url) ({} : Response) ({} : CacheState) =
      Except.error "Missing request in response" ∧
    captureResponse (cacheResponseInterceptor {} (fun r => r.url)
      ({ request := some { method := "get", url := "/a" } } : Response)
      ({} : CacheState)) =
      some ({ request := some { method := "get", url := "/a" } } : Response) :=
  ⟨(C8_missing_request_throws {} (fun r => r.url) {} {}).1 rfl,
   (C8_missing_request_throws {} (fun r => r.url)
      { request := some { method := "get", url := "/a" } } {}).2 _ rfl⟩

/- ### C1 -/

/-- A response served from cache, as it would re-enter the capture phase. -/
def fromCacheResponse : Response :=
  { request := some { method := "get", url := "/a", cacheSessionId := some "s" },
    fromCache := true }

/-- A shared state that still holds a pending entry for the response's key. -/
def statePendingA : CacheState :=
  { sessionId := some "s", pendingKeys := ["/a"] }

/-- C1 counterexample: on a `fromCache` response the capture interceptor makes
no collaborator call at all — in particular `resolve(requestId)` is NOT
called, and a pending entry for the same key survives untouched. -/
theorem C1_counterexample :
    cacheResponseInterceptor {} (fun r => r.url) fromCacheResponse statePendingA =
      Except.ok ⟨statePendingA, [], fromCacheResponse⟩ ∧
    CacheEffect.resolve "/a" ∉
      captureTrace (cacheResponseInterceptor {} (fun r => r.url)
        fromCacheResponse statePendingA) ∧
    (captureState (cacheResponseInterceptor {} (fun r => r.url)
        fromCacheResponse statePendingA) statePendingA).pendingKeys = ["/a"] :=
  ⟨rfl, by decide, rfl⟩

/-- C1 amended: for every response with `fromCache = true` reaching the
capture interceptor with its request attached, the interceptor skips storage,
makes no Pending Registry call (in particular `resolve` is not invoked, since
the whole capture block is guarded by `!response.fromCache`), leaves the state
untouched and returns the response unchanged. -/
theorem C1_fromCache_skips_capture (g : CacheOptionsPartial) (f : Request → String)
    (resp : Response) (s0 : CacheState) (req : Request)
    (hreq : resp.request = some req) (hfc : resp.fromCache = true) :
    cacheResponseInterceptor g f resp s0 = .ok ⟨s0, [], resp⟩ := by
  simp [cacheResponseInterceptor, hreq, hfc]

/-- Witness for C1 at a concrete `fromCache` response. -/
theorem C1_fromCache_skips_capture_witness :
    cacheResponseInterceptor {} (fun r => r.url) fromCacheResponse ({} : CacheState) =
      Except.ok ⟨{}, [], fromCacheResponse⟩ :=
  C1_fromCache_skips_capture {} (fun r => r.url) fromCacheResponse {} _ rfl rfl

/- ### C7 -/

/-- C7: the capture interceptor computes the response size only when
`maxResponseSize` or `maxCacheSize` is configured (otherwise `0` stands in);
when computed, the Content-Length header is used, and the materialized body
size is the fallback when the header is absent; the size so measured is the
one recorded by the store call. -/
theorem C7_response_size_measurement (g : CacheOptionsPartial) (f : Request → String)
    (resp : Response) (s0 : CacheState) (req : Request)
    (hreq : resp.request = some req) (hfc : resp.fromCache = false)
    (hm : isMethodSupported (resolvedCacheOptions g req).methods req.method = true) :
    ((resolvedCacheOptions g req).maxCacheSize = 0 ∧
     (resolvedCacheOptions g req).maxResponseSize = 0 →
       measuredResponseSize (resolvedCacheOptions g req) resp = 0) ∧
    ((resolvedCacheOptions g req).maxCacheSize ≠ 0 ∨
     (resolvedCacheOptions g req).maxResponseSize ≠ 0 →
       measuredResponseSize (resolvedCacheOptions g req) resp = getResponseSize resp) ∧
    (resp.contentLength = none → getResponseSize resp = resp.bodySize) ∧
    (∀ n, resp.contentLength = some n → n ≠ 0 → getResponseSize resp = n) ∧
    (isCurrentSessionId req.cacheSessionId s0 = true →
     isResponseContentTypeSupported resp (resolvedCacheOptions g req).contentTypes = true →
     isResponseSizeSupported (measuredResponseSize (resolvedCacheOptions g req) resp)
       (resolvedCacheOptions g req).maxResponseSize = true →
     CacheEffect.cacheSet (f req) (measuredResponseSize (resolvedCacheOptions g req) resp) ∈
       captureTrace (cacheResponseInterceptor g f resp s0)) := by
  refine ⟨?_, ?_, ?_, ?_, ?_⟩
  · intro h
    simp [measuredResponseSize, h.1, h.2]
  · intro h
    rcases h with h | h <;> simp [measuredResponseSize, h]
  · intro h
    simp [getResponseSize, h]
  · intro n h hn
    simp [getResponseSize, h, hn]
  · intro hsess hct hsz
    simp only [cacheResponseInterceptor, hreq, hfc, hm, hsess, hct, hsz]
    simp [captureTrace]
    split <;> simp

/-- A request annotated with a session id, shared by the C7 witness. -/
def requestA7 : Request :=
  { method := "get", url := "/a", cacheSessionId := some "s" }

/-- A response with a Content-Length header, for the C7 witness. -/
def responseWithLength : Response :=
  { request := some requestA7, contentLength := some 7, bodySize := 3 }

/-- A response without a Content-Length header, for the C7 witness. -/
def responseNoLength : Response :=
  { request := some requestA7, contentLength := none, bodySize := 3 }

/-- Witness for C7: a response with `Content-Length: 7` under a configured
budget measures `7`, one without the header measures its body size, and with
no limits configured size `0` is recorded by the store call. -/
theorem C7_response_size_measurement_witness :
    measuredResponseSize (resolvedCacheOptions { maxCacheSize := some 100 } requestA7)
      responseWithLength = 7 ∧
    getResponseSize responseNoLength = 3 ∧
    CacheEffect.cacheSet "/a" 0 ∈ captureTrace (cacheResponseInterceptor {}
      (fun r => r.url) responseWithLength { sessionId := some "s" }) := by
  refine ⟨?_, ?_, ?_⟩
  · have h := (C7_response_size_measurement { maxCacheSize := some 100 } (fun r => r.url)
      responseWithLength {} requestA7 rfl rfl (by decide))
    rw [h.2.1 (by decide), h.2.2.2.1 7 rfl (by decide)]
  · exact (C7_response_size_measurement {} (fun r => r.url)
      responseNoLength {} requestA7 rfl rfl (by decide)).2.2.1 rfl
  · exact (C7_response_size_measurement {} (fun r => r.url)
      responseWithLength { sessionId := some "s" } requestA7
      rfl rfl (by decide)).2.2.2.2 (by decide) (by decide) (by decide)

/- ### C2 -/

/-- A request that explicitly opts out of caching. -/
def noCacheRequest : Request :=
  { method := "get", url := "/a", cacheOptions := some { useCache := some false } }

/-- The opted-out request as the admission phase forwards it to the network. -/
def noCacheAdmitted : Request := admittedRequest {} "s" noCacheRequest

/-- The network response to the opted-out request. -/
def noCacheResponse : Response := { request := some noCacheAdmitted }

/-- A shared state whose current session matches the admitted request. -/
def sessionStateS : CacheState := { sessionId := some "s" }

/-- C2 counterexample: a request resolving to `useCache = false` passes
through admission untouched, but the capture interceptor — which never reads
`useCache` — still creates a Cache Store entry for its response. -/
theorem C2_counterexample :
    (resolvedCacheOptions {} noCacheRequest).useCache = false ∧
    (cacheRequestInterceptor {} (fun r => r.url) "s" noCacheRequest {} id).result =
      AdmissionResult.passThrough noCacheAdmitted ∧
    (resolvedCacheOptions {} noCacheAdmitted).useCache = false ∧
    captureTrace (cacheResponseInterceptor {} (fun r => r.url)
        noCacheResponse sessionStateS) =
      [CacheEffect.cacheSet "/a" 0, CacheEffect.resolve "/a"] ∧
    (captureState (cacheResponseInterceptor {} (fun r => r.url)
          noCacheResponse sessionStateS) sessionStateS).entries.lookup "/a" =
      some ⟨noCacheResponse, 0, 0⟩ := by
  decide

/-- C2 amended: for a request whose resolved options have `useCache = false`
the request-phase hook creates neither a Cache Store entry nor a Pending
Registry entry (it only resets the session and passes the request through);
and the response-phase hook never creates a Pending Registry entry for any
input; but the response-phase hook does not consult `useCache`, so it can
still create a Cache Store entry for such a request (see the
counterexample). -/
theorem C2_useCache_false_request_phase (g : CacheOptionsPartial)
    (f : Request → String) (sid : String) (req : Request) (s0 : CacheState)
    (w : CacheState → CacheState)
    (hu : (resolvedCacheOptions g req).useCache = false) :
    cacheRequestInterceptor g f sid req s0 w =
      ⟨resetCacheSession sid s0, [.resetSession sid],
       .passThrough (admittedRequest g sid req)⟩ ∧
    (cacheRequestInterceptor g f sid req s0 w).state.entries = s0.entries ∧
    (cacheRequestInterceptor g f sid req s0 w).state.pendingKeys = s0.pendingKeys ∧
    (∀ (resp : Response) (s : CacheState) (rid : String),
       CacheEffect.pendingSet rid ∉
         captureTrace (cacheResponseInterceptor g f resp s)) := by
  have heq : cacheRequestInterceptor g f sid req s0 w =
      ⟨resetCacheSession sid s0, [.resetSession sid],
       .passThrough (admittedRequest g sid req)⟩ := by
    simp [cacheRequestInterceptor, hu]
  refine ⟨heq, ?_, ?_, ?_⟩
  · rw [heq]; rfl
  · rw [heq]; rfl
  · intro resp s rid
    match hr : resp.request with
    | none => simp [cacheResponseInterceptor, hr, captureTrace]
    | some req2 =>
      simp only [cacheResponseInterceptor, hr]
      split
      · simp only [captureTrace]
        split
        · split <;> simp
        · simp
      · simp [captureTrace]

/-- Witness for C2 at the concrete opted-out request. -/
theorem C2_useCache_false_request_phase_witness :
    cacheRequestInterceptor {} (fun r => r.url) "s" noCacheRequest {} id =
      ⟨resetCacheSession "s" {}, [CacheEffect.resetSession "s"],
       .passThrough noCacheAdmitted⟩ ∧
    CacheEffect.pendingSet "/a" ∉
      captureTrace (cacheResponseInterceptor {} (fun r => r.url)
        noCacheResponse sessionStateS) := by
  have h := C2_useCache_false_request_phase {} (fun r => r.url) "s" noCacheRequest {}
    id (by decide)
  exact ⟨h.1, h.2.2.2 noCacheResponse sessionStateS "/a"⟩

/- ### C6 -/

/-- C6: with `useCache = true` and a non-cacheable method, the request
interceptor invalidates the cache for that requestId (exact-key removal) and
passes the request through, without creating a Pending Registry entry. -/
theorem C6_mutating_method_invalidates (g : CacheOptionsPartial)
    (f : Request → String) (sid : String) (req : Request) (s0 : CacheState)
    (w : CacheState → CacheState)
    (hu : (resolvedCacheOptions g req).useCache = true)
    (hm : isMethodSupported (resolvedCacheOptions g req).methods req.method = false) :
    cacheRequestInterceptor g f sid req s0 w =
      ⟨invalidateMatchingCache (f (admittedRequest g sid req)) (resetCacheSession sid s0),
       [.resetSession sid, .invalidate (f (admittedRequest g sid req))],
       .passThrough (admittedRequest g sid req)⟩ ∧
    (cacheRequestInterceptor g f sid req s0 w).state.pendingKeys = s0.pendingKeys ∧
    (cacheRequestInterceptor g f sid req s0 w).state.entries =
      s0.entries.filter (fun p => p.1 != f (admittedRequest g sid req)) := by
  have heq : cacheRequestInterceptor g f sid req s0 w =
      ⟨invalidateMatchingCache (f (admittedRequest g sid req)) (resetCacheSession sid s0),
       [.resetSession sid, .invalidate (f (admittedRequest g sid req))],
       .passThrough (admittedRequest g sid req)⟩ := by
    simp [cacheRequestInterceptor, admittedRequest_method, hu, hm]
  refine ⟨heq, ?_, ?_⟩
  · rw [heq]; rfl
  · rw [heq]; rfl

/-- A state holding cache entries for two urls, for the C6 witness. -/
def stateTwoEntries : CacheState :=
  { sessionId := some "t",
    entries := [("/a", ⟨{}, 4, 0⟩), ("/b", ⟨{}, 2, 0⟩)] }

/-- Witness for C6: a concrete `POST /a` removes the `/a` entry, keeps `/b`,
and no pending entry appears. -/
theorem C6_mutating_method_invalidates_witness :
    cacheRequestInterceptor {} (fun r => r.url) "s"
        ({ method := "post", url := "/a" } : Request) stateTwoEntries id =
      ⟨invalidateMatchingCache "/a" (resetCacheSession "s" stateTwoEntries),
       [CacheEffect.resetSession "s", CacheEffect.invalidate "/a"],
       .passThrough (admittedRequest {} "s" { method := "post", url := "/a" })⟩ ∧
    (cacheRequestInterceptor {} (fun r => r.url) "s"
        ({ method := "post", url := "/a" } : Request) stateTwoEntries id).state.entries =
      [("/b", ⟨{}, 2, 0⟩)] := by
  have h := C6_mutating_method_invalidates {} (fun r => r.url) "s"
    { method := "post", url := "/a" } stateTwoEntries id (by decide) (by decide)
  refine ⟨h.1, ?_⟩
  rw [h.1]
  decide

/- ### C4 -/

/-- C4: when a pending leader exists for the key, the request interceptor
waits for its settlement; if after waking the request's captured session id is
no longer current, the request passes through unchanged — the post-wake state
is exactly what the settlement left, and no Cache Store read happens. -/
theorem C4_stale_session_after_wake (g : CacheOptionsPartial)
    (f : Request → String) (sid : String) (req : Request) (s0 : CacheState)
    (w : CacheState → CacheState)
    (hu : (resolvedCacheOptions g req).useCache = true)
    (hm : isMethodSupported (resolvedCacheOptions g req).methods req.method = true)
    (hp : pendingRequestStoreGet (f (admittedRequest g sid req))
        (resetCacheSession sid s0) = true)
    (hs : isCurrentSessionId (some sid) (w (resetCacheSession sid s0)) = false) :
    cacheRequestInterceptor g f sid req s0 w =
      ⟨w (resetCacheSession sid s0),
       [.resetSession sid, .awaitPending (f (admittedRequest g sid req))],
       .passThrough (admittedRequest g sid req)⟩ ∧
    (∀ rid, CacheEffect.cacheGet rid ∉ (cacheRequestInterceptor g f sid req s0 w).trace) := by
  have heq : cacheRequestInterceptor g f sid req s0 w =
      ⟨w (resetCacheSession sid s0),
       [.resetSession sid, .awaitPending (f (admittedRequest g sid req))],
       .passThrough (admittedRequest g sid req)⟩ := by
    simp [cacheRequestInterceptor, admittedRequest_method, admittedRequest_cacheSessionId,
      hu, hm, hp, hs]
  refine ⟨heq, ?_⟩
  intro rid
  rw [heq]
  simp

/-- Witness for C4: a pending `/a` leader plus a session change while waiting
makes the concrete request pass through with no cache read. -/
theorem C4_stale_session_after_wake_witness :
    cacheRequestInterceptor {} (fun r => r.url) "s"
        ({ method := "get", url := "/a" } : Request)
        ({ pendingKeys := ["/a"] } : CacheState)
        (fun s => { s with sessionId := some "other" }) =
      ⟨{ sessionId := some "other", pendingKeys := ["/a"] },
       [CacheEffect.resetSession "s", CacheEffect.awaitPending "/a"],
       .passThrough (admittedRequest {} "s" { method := "get", url := "/a" })⟩ := by
  have h := (C4_stale_session_after_wake {} (fun r => r.url) "s"
    { method := "get", url := "/a" } { pendingKeys := ["/a"] }
    (fun s => { s with sessionId := some "other" })
    (by decide) (by decide) (by decide) (by decide)).1
  exact h

/- ### C5 -/

/-- The shared state the admission pass sees at its cache lookup: the state
after `resetCacheSession`, transformed by the settlement wait when a pending
request existed. -/
def awaitedState (g : CacheOptionsPartial) (f : Request → String) (sid : String)
    (req : Request) (s0 : CacheState) (w : CacheState → CacheState) : CacheState :=
  if pendingRequestStoreGet (f (admittedRequest g sid req)) (resetCacheSession sid s0) then
    w (resetCacheSession sid s0)
  else
    resetCacheSession sid s0

/-- C5: with `useCache = true`, a cacheable method, no stale-session bailout,
and a store lookup returning an entry whose content type passes the whitelist,
the request interceptor returns a clone of the cached response with
`fromCache = true` and the request attached, and never claims leadership (no
Pending Registry write) nor passes through to the network. -/
theorem C5_cache_hit_short_circuits (g : CacheOptionsPartial)
    (f : Request → String) (sid : String) (req : Request) (s0 : CacheState)
    (w : CacheState → CacheState) (cached : Response)
    (hu : (resolvedCacheOptions g req).useCache = true)
    (hm : isMethodSupported (resolvedCacheOptions g req).methods req.method = true)
    (hns : (pendingRequestStoreGet (f (admittedRequest g sid req))
              (resetCacheSession sid s0) &&
            !isCurrentSessionId (some sid) (awaitedState g f sid req s0 w)) = false)
    (hget : ajaxCacheGet (f (admittedRequest g sid req))
        (resolvedCacheOptions g req).maxAge (resolvedCacheOptions g req).maxResponseSize
        (awaitedState g f sid req s0 w) = some cached)
    (hct : isResponseContentTypeSupported cached
        (resolvedCacheOptions g req).contentTypes = true) :
    (cacheRequestInterceptor g f sid req s0 w).result =
      .cacheHit { cached with
        request := some (admittedRequest g sid req), fromCache := true } ∧
    (cacheRequestInterceptor g f sid req s0 w).state = awaitedState g f sid req s0 w ∧
    (∀ rid, CacheEffect.pendingSet rid ∉ (cacheRequestInterceptor g f sid req s0 w).trace) := by
  have heq : cacheRequestInterceptor g f sid req s0 w =
      ⟨awaitedState g f sid req s0 w,
       .resetSession sid ::
         ((if pendingRequestStoreGet (f (admittedRequest g sid req))
              (resetCacheSession sid s0) then
             [.awaitPending (f (admittedRequest g sid req))]
           else []) ++ [.cacheGet (f (admittedRequest g sid req))]),
       .cacheHit { cached with
         request := some (admittedRequest g sid req), fromCache := true }⟩ := by
    cases hp : pendingRequestStoreGet (f (admittedRequest g sid req))
        (resetCacheSession sid s0) with
    | true =>
      cases hcur : isCurrentSessionId (some sid) (w (resetCacheSession sid s0)) with
      | false =>
        simp [awaitedState, hp, hcur] at hns
      | true =>
        simp only [awaitedState, hp, if_true] at hget ⊢
        simp only [cacheRequestInterceptor, admittedRequest_method,
          admittedRequest_cacheSessionId, hu, hm, hp, hcur, hget, hct,
          Bool.not_true, Bool.and_false, Bool.not_false, if_true, if_false,
          Bool.true_and, Bool.false_and]
        rfl
    | false =>
      simp only [awaitedState, hp, if_false] at hget ⊢
      simp only [cacheRequestInterceptor, admittedRequest_method,
        admittedRequest_cacheSessionId, hu, hm, hp, hget, hct,
        Bool.false_and, Bool.not_true, Bool.not_false, if_true, if_false,
        List.nil_append]
      rfl
  refine ⟨?_, ?_, ?_⟩
  · rw [heq]
  · rw [heq]
  · intro rid
    rw [heq]
    split <;> simp

/-- A cached response stored under `/a`, for the C5 witness. -/
def cachedResponseA : Response :=
  { contentType := some "application/json", contentLength := some 2, bodySize := 2 }

/-- A state holding the `/a` entry and no pending request, for the C5
witness. -/
def stateCachedA : CacheState :=
  { sessionId := some "s", entries := [("/a", ⟨cachedResponseA, 2, 0⟩)] }

/-- Witness for C5: a concrete `GET /a` against a populated store is served
from cache with `fromCache = true` and claims no leadership. -/
theorem C5_cache_hit_short_circuits_witness :
    (cacheRequestInterceptor {} (fun r => r.url) "s"
        ({ method := "get", url := "/a" } : Request) stateCachedA id).result =
      .cacheHit { cachedResponseA with
        request := some (admittedRequest {} "s" { method := "get", url := "/a" }),
        fromCache := true } ∧
    CacheEffect.pendingSet "/a" ∉
      (cacheRequestInterceptor {} (fun r => r.url) "s"
        ({ method := "get", url := "/a" } : Request) stateCachedA id).trace := by
  have h := C5_cache_hit_short_circuits {} (fun r => r.url) "s"
    { method := "get", url := "/a" } stateCachedA id cachedResponseA
    (by decide) (by decide) (by decide) (by decide) (by decide)
  exact ⟨h.1, h.2.2 "/a"⟩

/- ### C3 -/

/-- The capture write-eligibility condition, as the code computes it, is
equivalent to the specification's conjunction "session still current AND
content type whitelisted AND size within `maxResponseSize`". -/
theorem captureEligible_iff (g : CacheOptionsPartial) (resp : Response)
    (s0 : CacheState) (req : Request) :
    (isCurrentSessionId req.cacheSessionId s0 &&
     isResponseContentTypeSupported resp (resolvedCacheOptions g req).contentTypes &&
     isResponseSizeSupported (measuredResponseSize (resolvedCacheOptions g req) resp)
       (resolvedCacheOptions g req).maxResponseSize) = true ↔
    (isCurrentSessionId req.cacheSessionId s0 = true ∧
     isResponseContentTypeSupported resp (resolvedCacheOptions g req).contentTypes = true ∧
     ((resolvedCacheOptions g req).maxResponseSize = 0 ∨
      measuredResponseSize (resolvedCacheOptions g req) resp ≤
        (resolvedCacheOptions g req).maxResponseSize)) := by
  simp only [Bool.and_eq_true, isResponseSizeSupported_iff]
  constructor
  · rintro ⟨⟨h1, h2⟩, h3⟩
    exact ⟨h1, h2, by omega⟩
  · rintro ⟨h1, h2, h3⟩
    exact ⟨⟨h1, h2⟩, by omega⟩

/-- C3: for a non-`fromCache` response with a cacheable method, the capture
interceptor stores a clone keyed by requestId, with the measured size and the
current timestamp, if and only if the session is still current, the content
type passes the whitelist and the size is within `maxResponseSize`; when
`maxCacheSize` is configured the eviction-to-budget call runs right after the
store. -/
theorem C3_capture_store_iff_eligible (g : CacheOptionsPartial)
    (f : Request → String) (resp : Response) (s0 : CacheState) (req : Request)
    (hreq : resp.request = some req) (hfc : resp.fromCache = false)
    (hm : isMethodSupported (resolvedCacheOptions g req).methods req.method = true) :
    (CacheEffect.cacheSet (f req) (measuredResponseSize (resolvedCacheOptions g req) resp) ∈
        captureTrace (cacheResponseInterceptor g f resp s0) ↔
      (isCurrentSessionId req.cacheSessionId s0 = true ∧
       isResponseContentTypeSupported resp (resolvedCacheOptions g req).contentTypes = true ∧
       ((resolvedCacheOptions g req).maxResponseSize = 0 ∨
        measuredResponseSize (resolvedCacheOptions g req) resp ≤
          (resolvedCacheOptions g req).maxResponseSize))) ∧
    (isCurrentSessionId req.cacheSessionId s0 = true →
     isResponseContentTypeSupported resp (resolvedCacheOptions g req).contentTypes = true →
     isResponseSizeSupported (measuredResponseSize (resolvedCacheOptions g req) resp)
       (resolvedCacheOptions g req).maxResponseSize = true →
     ((resolvedCacheOptions g req).maxCacheSize ≠ 0 →
        captureTrace (cacheResponseInterceptor g f resp s0) =
          [.cacheSet (f req) (measuredResponseSize (resolvedCacheOptions g req) resp),
           .truncate (resolvedCacheOptions g req).maxCacheSize,
           .resolve (f req)]) ∧
     ((resolvedCacheOptions g req).maxCacheSize = 0 →
        captureTrace (cacheResponseInterceptor g f resp s0) =
          [.cacheSet (f req) (measuredResponseSize (resolvedCacheOptions g req) resp),
           .resolve (f req)] ∧
        (captureState (cacheResponseInterceptor g f resp s0) s0).entries.lookup (f req) =
          some ⟨resp, measuredResponseSize (resolvedCacheOptions g req) resp, s0.now⟩)) := by
  cases hE : (isCurrentSessionId req.cacheSessionId s0 &&
      isResponseContentTypeSupported resp (resolvedCacheOptions g req).contentTypes &&
      isResponseSizeSupported (measuredResponseSize (resolvedCacheOptions g req) resp)
        (resolvedCacheOptions g req).maxResponseSize) with
  | false =>
    have hrun : cacheResponseInterceptor g f resp s0 =
        .ok ⟨pendingRequestStoreResolve (f req) s0, [.resolve (f req)], resp⟩ := by
      simp [cacheResponseInterceptor, hreq, hfc, hm, hE]
    constructor
    · rw [hrun]
      simp only [captureTrace]
      constructor
      · intro hmem
        simp at hmem
      · intro hspec
        have := (captureEligible_iff g resp s0 req).mpr hspec
        simp [this] at hE
    · intro h1 h2 h3
      simp [h1, h2, h3] at hE
  | true =>
    have hspec := (captureEligible_iff g resp s0 req).mp hE
    by_cases hmcs : (resolvedCacheOptions g req).maxCacheSize = 0
    · have hrun : cacheResponseInterceptor g f resp s0 =
          .ok ⟨pendingRequestStoreResolve (f req)
                 (ajaxCacheSet (f req) resp
                   (measuredResponseSize (resolvedCacheOptions g req) resp) s0),
               [.cacheSet (f req) (measuredResponseSize (resolvedCacheOptions g req) resp),
                .resolve (f req)], resp⟩ := by
        simp [cacheResponseInterceptor, hreq, hfc, hm, hE, hmcs]
      refine ⟨?_, ?_⟩
      · rw [hrun]
        simp only [captureTrace]
        simp [hspec]
      · intro _ _ _
        refine ⟨fun hne => absurd hmcs hne, fun _ => ?_⟩
        rw [hrun]
        refine ⟨rfl, ?_⟩
        simp [captureState, pendingRequestStoreResolve, ajaxCacheSet, List.lookup]
    · have hrun : cacheResponseInterceptor g f resp s0 =
          .ok ⟨pendingRequestStoreResolve (f req)
                 (ajaxCacheTruncateTo (resolvedCacheOptions g req).maxCacheSize
                   (ajaxCacheSet (f req) resp
                     (measuredResponseSize (resolvedCacheOptions g req) resp) s0)),
               [.cacheSet (f req) (measuredResponseSize (resolvedCacheOptions g req) resp),
                .truncate (resolvedCacheOptions g req).maxCacheSize,
                .resolve (f req)], resp⟩ := by
        simp [cacheResponseInterceptor, hreq, hfc, hm, hE, hmcs]
      refine ⟨?_, ?_⟩
      · rw [hrun]
        simp only [captureTrace]
        simp [hspec]
      · intro _ _ _
        refine ⟨fun _ => ?_, fun heq0 => absurd heq0 hmcs⟩
        rw [hrun]
        rfl

/-- Witness for C3: an eligible `GET /a` response of measured size `7` under a
`maxCacheSize = 100` budget is stored and then the eviction pass runs. -/
theorem C3_capture_store_iff_eligible_witness :
    captureTrace (cacheResponseInterceptor { maxCacheSize := some 100 } (fun r => r.url)
        responseWithLength { sessionId := some "s" }) =
      [CacheEffect.cacheSet "/a" 7, CacheEffect.truncate 100, CacheEffect.resolve "/a"] := by
  have h := (C3_capture_store_iff_eligible { maxCacheSize := some 100 } (fun r => r.url)
    responseWithLength { sessionId := some "s" } requestA7 rfl rfl (by decide)).2
    (by decide) (by decide) (by decide)
  exact h.1 (by decide)

/- ### C9 -/

/-- The requestId function of the dedup scenario: key by url. -/
def dedupRid : Request → String := fun r => r.url

/-- A plain GET request of the dedup scenario. -/
def dedupRequest (u : String) : Request := { method := "get", url := u }

/-- First admission pass of the dedup scenario, from an empty shared state;
nothing is pending, so the wait transformer is never applied. -/
def dedupRunA (sid u : String) : AdmissionRun :=
  cacheRequestInterceptor {} dedupRid sid (dedupRequest u) {} id

/-- The network response the leader brings back in the dedup scenario. -/
def dedupResponse (sid u : String) : Response :=
  { request := some (admittedRequest {} sid (dedupRequest u)),
    contentType := some "application/json", contentLength := some 4, bodySize := 4 }

/-- What happens while the follower waits: the leader's response goes through
the capture interceptor, which settles the pending entry. -/
def dedupLeaderSettles (sid u : String) : CacheState → CacheState :=
  fun s => captureState (cacheResponseInterceptor {} dedupRid (dedupResponse sid u) s) s

/-- Second admission pass of the dedup scenario, entered while the first is
unresolved. -/
def dedupRunB (sid u : String) : AdmissionRun :=
  cacheRequestInterceptor {} dedupRid sid (dedupRequest u) (dedupRunA sid u).state
    (dedupLeaderSettles sid u)

/-- C9: two concurrent requests sharing a requestId, the second admitted while
the first is unresolved, produce exactly one network dispatch: the first
claims leadership (pending entry set, request passed through to the network)
and the second waits for the settlement and is then served from cache instead
of dispatching. -/
theorem C9_concurrent_dedup (sid u : String) :
    (dedupRunA sid u).result = .passThrough (admittedRequest {} sid (dedupRequest u)) ∧
    CacheEffect.pendingSet u ∈ (dedupRunA sid u).trace ∧
    pendingRequestStoreGet u (dedupRunA sid u).state = true ∧
    CacheEffect.awaitPending u ∈ (dedupRunB sid u).trace ∧
    (dedupRunB sid u).result = .cacheHit { dedupResponse sid u with
      request := some (admittedRequest {} sid (dedupRequest u)), fromCache := true } ∧
    CacheEffect.pendingSet u ∉ (dedupRunB sid u).trace := by
  have hms : isMethodSupported ["get"] "get" = true := by decide
  have hA : dedupRunA sid u =
      ⟨{ sessionId := some sid, entries := [], pendingKeys := [u], now := 0 },
       [.resetSession sid, .cacheGet u, .pendingSet u],
       .passThrough (admittedRequest {} sid (dedupRequest u))⟩ := by
    simp [dedupRunA, cacheRequestInterceptor, dedupRid, dedupRequest, admittedRequest,
      resolvedCacheOptions, mergeCacheOptions, extendCacheOptions, resetCacheSession,
      pendingRequestStoreGet, pendingRequestStoreSet, isCurrentSessionId, ajaxCacheGet,
      hms, List.lookup]
  have hSettle : dedupLeaderSettles sid u
      { sessionId := some sid, entries := [], pendingKeys := [u], now := 0 } =
      { sessionId := some sid, entries := [(u, ⟨dedupResponse sid u, 0, 0⟩)],
        pendingKeys := [], now := 0 } := by
    simp [dedupLeaderSettles, cacheResponseInterceptor, dedupResponse, dedupRid,
      admittedRequest, dedupRequest, resolvedCacheOptions, mergeCacheOptions,
      extendCacheOptions, CacheOptions.toPartial, isCurrentSessionId,
      isResponseContentTypeSupported, measuredResponseSize, getResponseSize,
      isResponseSizeSupported, ajaxCacheSet, pendingRequestStoreResolve, captureState,
      hms, List.filter]
  have hB : dedupRunB sid u =
      ⟨{ sessionId := some sid, entries := [(u, ⟨dedupResponse sid u, 0, 0⟩)],
         pendingKeys := [], now := 0 },
       [.resetSession sid, .awaitPending u, .cacheGet u],
       .cacheHit { dedupResponse sid u with
         request := some (admittedRequest {} sid (dedupRequest u)), fromCache := true }⟩ := by
    rw [dedupRunB, hA]
    simp [cacheRequestInterceptor, dedupRid, dedupRequest, admittedRequest,
      resolvedCacheOptions, mergeCacheOptions, extendCacheOptions, CacheOptions.toPartial,
      resetCacheSession, pendingRequestStoreGet, isCurrentSessionId, ajaxCacheGet,
      List.lookup, hms, hSettle, dedupResponse, isResponseContentTypeSupported]
  refine ⟨?_, ?_, ?_, ?_, ?_, ?_⟩
  · rw [hA]
  · rw [hA]; simp
  · rw [hA]; simp [pendingRequestStoreGet]
  · rw [hB]; simp
  · rw [hB]
  · rw [hB]; simp
